import Mathlib

/-!
Verification development for the IKEA product availability checker
(src/ikea_product_checker/app.py). The Python source is shallowly embedded:
JSON-like payloads become an inductive `Json` type, dictionary subscripting
becomes `Option`-valued field lookup, raised exceptions become `Except`
errors, and the HTTP layer becomes an oracle function from request URL and
headers to a response. All definitions are executable and structural, so
concrete runs evaluate by `rfl` / `decide`.
-/

set_option maxRecDepth 4096

/-- JSON-like values as returned by the backend availability API and consumed
by the checker. String, integer, object and array values suffice for the
shapes the program touches. -/
inductive Json where
  | str (s : String)
  | num (n : Int)
  | obj (fields : List (String × Json))
  | arr (elems : List Json)

/-- Lookup of a key in an association list of JSON object fields
(Python dictionaries preserve insertion order and have unique keys). -/
def lookupField : List (String × Json) → String → Option Json
  | [], _ => none
  | (k, v) :: rest, key => if k = key then some v else lookupField rest key

/-- Dictionary subscripting `data[key]`: `none` models the raised
KeyError (missing key) or TypeError (subscripting a non-dictionary); the
program treats both as a missing-data failure. -/
def Json.getField : Json → String → Option Json
  | .obj fields, key => lookupField fields key
  | _, _ => none

mutual
/-- Model of Python repr for these JSON-like values (string escaping inside
repr is not modelled; the program only ever formats plain strings). -/
def Json.pyRepr : Json → String
  | .str s => "\x27" ++ s ++ "\x27"
  | .num n => toString n
  | .obj fields => "\x7b" ++ reprFields fields ++ "\x7d"
  | .arr elems => "[" ++ reprElems elems ++ "]"

/-- Comma-separated repr of object fields. -/
def reprFields : List (String × Json) → String
  | [] => ""
  | [(k, v)] => "\x27" ++ k ++ "\x27: " ++ Json.pyRepr v
  | (k, v) :: rest => "\x27" ++ k ++ "\x27: " ++ Json.pyRepr v ++ ", " ++ reprFields rest

/-- Comma-separated repr of array elements. -/
def reprElems : List Json → String
  | [] => ""
  | [v] => Json.pyRepr v
  | v :: rest => Json.pyRepr v ++ ", " ++ reprElems rest
end

/-- Model of Python str() as used by f-string interpolation: a string value
formats as itself, anything else as its repr. -/
def Json.pyStr : Json → String
  | .str s => s
  | j => j.pyRepr

/-- Python exceptions the script can raise while interpreting a payload.
KeyError/TypeError on a nested field access are merged into `missingData`
(the path does not exist in the expected shape); ValueError/TypeError from
int() on a non-parseable value are merged into `invalidInput`. This matches
the MissingData / InvalidInput error taxonomy of the specification. -/
inductive PyError where
  | missingData
  | invalidInput
deriving DecidableEq

/-- Process-level failure: `exit code printed` models print-then-sys.exit
(the printed diagnostic is carried along), `exc e` models an uncaught
exception propagating out. -/
inductive PyFail where
  | exit (code : Nat) (printed : String)
  | exc (e : PyError)
deriving DecidableEq

/-- Digits of a Python integer literal after the first digit: single
underscores may appear between digits, never doubled or trailing.
Accumulates the decimal value. -/
def digitsCore (acc : Nat) : List Char → Option Nat
  | [] => some acc
  | c :: rest =>
    if c = '_' then
      match rest with
      | [] => none
      | c2 :: rest2 =>
        if c2.isDigit then digitsCore (acc * 10 + (c2.toNat - 48)) rest2 else none
    else
      if c.isDigit then digitsCore (acc * 10 + (c.toNat - 48)) rest else none

/-- Value of a digit group: it must start with a digit (no leading
underscore) and then follow the underscore-grouping rule. -/
def pyDigitsValue : List Char → Option Nat
  | [] => none
  | c :: rest => if c.isDigit then digitsCore (c.toNat - 48) rest else none

/-- Strip leading and trailing whitespace from a character list, as Python
int() does before parsing. -/
def listTrim (cs : List Char) : List Char :=
  (((cs.dropWhile Char.isWhitespace).reverse).dropWhile Char.isWhitespace).reverse

/-- Parse an already-trimmed character list as an optionally signed decimal
integer. -/
def pyParseTrimmed : List Char → Option Int
  | [] => none
  | c :: rest =>
    if c = '+' then (pyDigitsValue rest).map Int.ofNat
    else if c = '-' then (pyDigitsValue rest).map (fun n => -(n : Int))
    else (pyDigitsValue (c :: rest)).map Int.ofNat

/-- Model of Python int() applied to a string: whitespace is stripped, an
optional sign is consumed, and the rest must be decimal digits (with legal
underscore grouping). `none` models the raised ValueError. -/
def pyStrToInt (s : String) : Option Int :=
  pyParseTrimmed (listTrim s.data)

/-- Model of Python int() applied to a JSON value: strings are parsed,
integers pass through, and any other value fails (`invalidInput` covers
both the ValueError of an unparsable string and the TypeError of a
non-numeric, non-string operand). -/
def pyIntOfJson : Json → Except PyError Int
  | .str s =>
    match pyStrToInt s with
    | some n => .ok n
    | none => .error .invalidInput
  | .num n => .ok n
  | _ => .error .invalidInput

/-- The nested stock-count access of is_available (app.py lines 91-93):
`data["StockAvailability"]["RetailItemAvailability"]["AvailableStock"]["$"]`. -/
def stockPath (data : Json) : Option Json :=
  (((data.getField "StockAvailability").bind
      (fun j => j.getField "RetailItemAvailability")).bind
      (fun j => j.getField "AvailableStock")).bind
      (fun j => j.getField "$")

/-- Embedding of is_available (app.py lines 82-94): extract the stock count
string along the nested path, parse it with int(), and return the pair of
the comparison with zero and the raw extracted value. -/
def is_available (data : Json) : Except PyError (Bool × Json) :=
  match stockPath data with
  | none => .error .missingData
  | some stock_count =>
    match pyIntOfJson stock_count with
    | .error e => .error e
    | .ok n => .ok (decide (0 < n), stock_count)

/-- Decimal value of a digit string, the specification-side meaning of
"the integer value of s" for a non-negative stock count. -/
def digitStrVal (s : String) : Nat :=
  s.data.foldl (fun a c => a * 10 + (c.toNat - 48)) 0

/-- Model of Python str.rjust: pad on the left with the fill character up to
the requested width (no-op when the string is already at least that wide). -/
def pyRjust (s : String) (width : Nat) (fill : Char) : String :=
  String.mk (List.replicate (width - s.length) fill) ++ s

/-- Embedding of the local helper _pad_left of prep_product_message
(app.py lines 115-116): right-justify to the own length plus `how_much`,
which prepends exactly `how_much` fill characters. -/
def pad_left (string : String) (how_much : Nat) (pad_char : Char) : String :=
  pyRjust string (string.length + how_much) pad_char

/-- Model of Python str.upper (ASCII range, which covers every string the
program upper-cases). -/
def pyUpper (s : String) : String :=
  String.mk (s.data.map Char.toUpper)

/-- Model of Python str.capitalize: first character upper-cased, remaining
characters lower-cased (ASCII range). -/
def pyCapitalize (s : String) : String :=
  match s.data with
  | [] => ""
  | c :: rest => String.mk (Char.toUpper c :: rest.map Char.toLower)

/-- Fuel-indexed scan for Python str.replace with a nonempty pattern:
at each position, if the pattern is a prefix, emit the replacement and skip
the pattern, else copy one character. Fuel equal to the input length always
suffices, and keeps the recursion structural so it evaluates in the kernel. -/
def pyReplaceFuel (old new : List Char) : Nat → List Char → List Char
  | _, [] => []
  | 0, l => l
  | fuel + 1, c :: rest =>
    if old.isPrefixOf (c :: rest) then
      new ++ pyReplaceFuel old new fuel (List.drop (old.length - 1) rest)
    else
      c :: pyReplaceFuel old new fuel rest

/-- Model of Python s.replace(old, new): replace every non-overlapping
occurrence of `old`, scanning left to right. An empty pattern inserts the
replacement before every character and at the end, as Python does. -/
def pyReplace (s old new : String) : String :=
  match old.data with
  | [] => new ++ String.mk (s.data.foldr (fun c acc => c :: (new.data ++ acc)) [])
  | _ => String.mk (pyReplaceFuel old.data new.data s.data.length s.data)

/-- Rendering of the fields of one forecast day (the inner loop of
prep_product_message, app.py lines 126-127): each field name is left-padded
by five spaces, followed by a colon, a space, the $-keyed value, and the
two-character terminator LF CR. A value without a "$" key raises KeyError
(missingData). -/
def renderDay : List (String × Json) → Except PyError String
  | [] => .ok ""
  | (key, value) :: rest =>
    match value.getField "$" with
    | none => .error .missingData
    | some v =>
      match renderDay rest with
      | .error e => .error e
      | .ok r => .ok (pad_left key 5 ' ' ++ ": " ++ v.pyStr ++ "\n\r" ++ r)

/-- Rendering of the whole forecast list (the outer loop of
prep_product_message, app.py lines 125-128): after the fields of each day
the literal separator "\n==========\n\n" is appended. A day that is not an
object cannot be iterated with .items(), modelled as invalidInput. -/
def forecastBlock : List Json → Except PyError String
  | [] => .ok ""
  | day :: rest =>
    match day with
    | .obj fields =>
      match renderDay fields with
      | .error e => .error e
      | .ok d =>
        match forecastBlock rest with
        | .error e => .error e
        | .ok r => .ok (d ++ "\n==========\n\n" ++ r)
    | _ => .error .invalidInput

/-- Embedding of prep_product_message (app.py lines 97-130): the upper-cased
store header, the product status line, the availability sentence, the
upper-cased forecast header, then the rendered forecast. The forecast value
must be a JSON array to be iterable. -/
def prep_product_message (store_name product_name : String)
    (availability_status : Bool × Json) (forecast : Json) : Except PyError String :=
  match forecast with
  | .arr days =>
    match forecastBlock days with
    | .error e => .error e
    | .ok fb => .ok (
        pyUpper ("Store: \x27" ++ store_name ++ "\x27\n")
        ++ ("Status for \x27" ++ product_name ++ "\x27:\n\n")
        ++ ("Product is currently "
            ++ (if availability_status.1 then "available" else "not available")
            ++ " with " ++ availability_status.2.pyStr ++ " in stock.\n\n")
        ++ pyUpper "Availability Forecast:\n\n"
        ++ fb)
  | _ => .error .invalidInput

/-- An HTTP response as the checker observes it: status code, reason phrase,
and the JSON-decoded body. -/
structure HttpResponse where
  status : Nat
  reason : String
  body : Json

/-- The HTTP layer as an oracle: a function from request URL and header list
to the response the backend would return. -/
abbrev Http := String → List (String × String) → HttpResponse

/-- Scheme recognizer of urlsplit restricted to hierarchical URLs: the
character list up to the first ":" (which must be immediately followed by
"//") is the scheme, provided no "/", "?" or "#" occurs before it; the
remainder after "://" is returned alongside. -/
def splitUrlAux : List Char → Option (List Char × List Char)
  | [] => none
  | '/' :: _ => none
  | '?' :: _ => none
  | '#' :: _ => none
  | ':' :: '/' :: '/' :: rest => some ([], rest)
  | ':' :: _ => none
  | c :: rest =>
    match splitUrlAux rest with
    | none => none
    | some (sch, after) => some (c :: sch, after)

/-- Split a hierarchical URL into scheme, network location and path
(query and fragment are not modelled; the program never uses them). -/
def splitUrl (u : String) : Option (String × String × String) :=
  match splitUrlAux u.data with
  | none => none
  | some (sch, rest) =>
    some (String.mk sch,
          String.mk (rest.takeWhile (fun c => c ≠ '/')),
          String.mk (rest.dropWhile (fun c => c ≠ '/')))

/-- Model of Python str.startswith as a character-list prefix check. -/
def strStartsWith (s pre : String) : Bool :=
  pre.data.isPrefixOf s.data

/-- Drop the last path segment (everything after the final "/"), used when a
relative reference is merged onto the base path. -/
def dropLastSegment (p : String) : String :=
  String.mk ((p.data.reverse.dropWhile (fun c => c ≠ '/')).reverse)

/-- Model of urllib.parse.urljoin restricted to hierarchical base URLs of
the shape scheme://netloc/path without query or fragment, and references
without dot segments. An empty reference keeps the base; a reference with
its own scheme wins; a protocol-relative reference adopts the scheme; an
absolute path replaces the base path; anything else is merged onto the base
path with its last segment dropped. -/
def urljoin (base url : String) : String :=
  if url = "" then base
  else
    match splitUrl url with
    | some _ => url
    | none =>
      match splitUrl base with
      | none => url
      | some (sch, netloc, bpath) =>
        if strStartsWith url "//" then sch ++ ":" ++ url
        else if strStartsWith url "/" then sch ++ "://" ++ netloc ++ url
        else if bpath = "" then sch ++ "://" ++ netloc ++ "/" ++ url
        else sch ++ "://" ++ netloc ++ dropLastSegment bpath ++ url

/-- The URL requested by fetch_product_info (app.py lines 65-72): both
placeholders are substituted in the resource template and the result is
joined onto the API host. -/
def requestUrl (api_host api_resource store_code product_code : String) : String :=
  urljoin api_host
    (pyReplace (pyReplace api_resource "\x7bstore_code\x7d" store_code)
      "\x7bproduct_code\x7d" product_code)

/-- The diagnostic text of requests.HTTPError as produced by
raise_for_status: client errors for the 400s, server errors for the 500s. -/
def httpErrorMsg (status : Nat) (reason url : String) : String :=
  if 400 ≤ status ∧ status < 500 then
    toString status ++ " Client Error: " ++ reason ++ " for url: " ++ url
  else if 500 ≤ status ∧ status < 600 then
    toString status ++ " Server Error: " ++ reason ++ " for url: " ++ url
  else ""

/-- Embedding of fetch_product_info (app.py lines 44-79): build the request
URL, issue the GET through the oracle, and either return the decoded body or
(for any status in the 400-599 range which raise_for_status rejects) print
the HTTPError text and exit the whole process with status 1. -/
def fetch_product_info (http : Http) (api_host api_resource store_code product_code : String)
    (resource_header : List (String × String)) : Except PyFail Json :=
  let url := requestUrl api_host api_resource store_code product_code
  let response := http url resource_header
  if 400 ≤ response.status ∧ response.status < 600 then
    .error (.exit 1 (httpErrorMsg response.status response.reason url))
  else
    .ok response.body

/-- The configuration fields check_products reads (config["ikea"]...):
API host, availability resource template, availability headers, and the
ordered store and product code mappings. -/
structure Config where
  host : String
  availability_resource : String
  availability_headers : List (String × String)
  store_codes : List (String × String)
  product_codes : List (String × String)

/-- Store display name as derived in check_products (app.py line 171):
underscores replaced by spaces, nothing else. -/
def storeDisplay (k : String) : String :=
  pyReplace k "_" " "

/-- Product display name as derived in check_products (app.py line 172):
underscores replaced by spaces, then capitalized. -/
def productDisplay (k : String) : String :=
  pyCapitalize (pyReplace k "_" " ")

/-- The forecast extraction of check_products (app.py lines 174-176):
`data["StockAvailability"]["AvailableStockForecastList"]["AvailableStockForecast"]`. -/
def forecastPath (data : Json) : Option Json :=
  ((data.getField "StockAvailability").bind
      (fun j => j.getField "AvailableStockForecastList")).bind
      (fun j => j.getField "AvailableStockForecast")

/-- One record of the list check_products builds (app.py lines 169-178). -/
structure ProductResult where
  store : String
  name : String
  status : Bool × Json
  forecast : Json

/-- The body of the inner loop of check_products (app.py lines 160-178) for
one store/product pair: fetch, evaluate availability, extract the forecast,
and assemble the record with display names. A raised exception or process
exit aborts everything. -/
def checkOne (http : Http) (cfg : Config)
    (store_name store_code product_name product_code : String) :
    Except PyFail ProductResult :=
  match fetch_product_info http cfg.host cfg.availability_resource
      store_code product_code cfg.availability_headers with
  | .error e => .error e
  | .ok data =>
    match is_available data with
    | .error e => .error (.exc e)
    | .ok status =>
      match forecastPath data with
      | none => .error (.exc .missingData)
      | some fc =>
        .ok ⟨storeDisplay store_name, productDisplay product_name, status, fc⟩

/-- The inner product loop of check_products for one store: results are
appended in the order the product codes appear in the configuration. -/
def checkRow (http : Http) (cfg : Config) (store_name store_code : String) :
    List (String × String) → Except PyFail (List ProductResult)
  | [] => .ok []
  | (product_name, product_code) :: rest =>
    match checkOne http cfg store_name store_code product_name product_code with
    | .error e => .error e
    | .ok r =>
      match checkRow http cfg store_name store_code rest with
      | .error e => .error e
      | .ok rs => .ok (r :: rs)

/-- The outer store loop of check_products: rows are appended in the order
the store codes appear in the configuration. The tqdm progress wrappers of
the source iterate the same lists in the same order and are omitted. -/
def checkStores (http : Http) (cfg : Config) :
    List (String × String) → Except PyFail (List ProductResult)
  | [] => .ok []
  | (store_name, store_code) :: rest =>
    match checkRow http cfg store_name store_code cfg.product_codes with
    | .error e => .error e
    | .ok row =>
      match checkStores http cfg rest with
      | .error e => .error e
      | .ok others => .ok (row ++ others)

/-- Embedding of check_products (app.py lines 133-180). -/
def check_products (http : Http) (cfg : Config) : Except PyFail (List ProductResult) :=
  checkStores http cfg cfg.store_codes

/-- The per-product sections of the report in input order, each produced by
prep_product_message; the first raised exception aborts the whole report. -/
def sectionsOf : List ProductResult → Except PyError (List String)
  | [] => .ok []
  | p :: rest =>
    match prep_product_message p.store p.name p.status p.forecast with
    | .error e => .error e
    | .ok m =>
      match sectionsOf rest with
      | .error e => .error e
      | .ok ms => .ok (m :: ms)

/-- The loop of create_mail_message (app.py lines 194-197): concatenate the
per-product messages in order. -/
def concatMessages : List ProductResult → Except PyError String
  | [] => .ok ""
  | p :: rest =>
    match prep_product_message p.store p.name p.status p.forecast with
    | .error e => .error e
    | .ok m =>
      match concatMessages rest with
      | .error e => .error e
      | .ok r => .ok (m ++ r)

/-- Embedding of create_mail_message (app.py lines 183-199): the upper-cased
report header followed by the concatenated per-product messages. -/
def create_mail_message (products_data : List ProductResult) : Except PyError String :=
  match concatMessages products_data with
  | .error e => .error e
  | .ok body => .ok (pyUpper "Availability status of IKEA products:\n\n" ++ body)

/-- Specification-side display transformation: replace every underscore with
a single space (stated with List.map so each character is transformed
independently). -/
def underscoreToSpace (s : String) : String :=
  String.mk (s.data.map (fun c => if c = '_' then ' ' else c))

/-- Specification-side capitalize semantics: first character upper-cased,
remaining characters lower-cased. -/
def capitalizeSpec (s : String) : String :=
  match s.data with
  | [] => ""
  | c :: rest => String.mk (Char.toUpper c :: rest.map Char.toLower)

/-- A well-formed availability payload with the given stock-count value and
an empty forecast list, used to exercise the embedding on concrete runs. -/
def payloadWith (v : Json) : Json :=
  Json.obj [("StockAvailability", Json.obj [
    ("RetailItemAvailability", Json.obj [("AvailableStock", Json.obj [("$", v)])]),
    ("AvailableStockForecastList", Json.obj [("AvailableStockForecast", Json.arr [])])])]

/-- An HTTP oracle that always answers 200 with a payload holding five items
in stock. -/
def httpGood : Http :=
  fun _ _ => ⟨200, "OK", payloadWith (Json.str "5")⟩

/-- A two-store, two-product configuration for concrete runs. -/
def cfg22 : Config :=
  ⟨"https://example.com", "/a/\x7bstore_code\x7d/\x7bproduct_code\x7d.json", [],
   [("s1", "c1"), ("s2", "c2")], [("p1", "x"), ("p2", "y")]⟩

/-- The result list a full run over cfg22 with httpGood produces. -/
def results22 : List ProductResult :=
  [⟨"s1", "P1", (true, Json.str "5"), Json.arr []⟩,
   ⟨"s1", "P2", (true, Json.str "5"), Json.arr []⟩,
   ⟨"s2", "P1", (true, Json.str "5"), Json.arr []⟩,
   ⟨"s2", "P2", (true, Json.str "5"), Json.arr []⟩]

/-- Right-associated concatenation of a list of strings, the
specification-side meaning of "the concatenation of the sections". -/
def joinStrings : List String → String
  | [] => ""
  | m :: ms => m ++ joinStrings ms

/-- A configuration with no stores (and one product), for concrete runs. -/
def cfgEmptyStores : Config :=
  ⟨"https://example.com", "/a/\x7bstore_code\x7d/\x7bproduct_code\x7d.json", [],
   [], [("p1", "x")]⟩

/-- An HTTP oracle that always answers 404 Not Found. -/
def http404 : Http :=
  fun _ _ => ⟨404, "Not Found", Json.obj []⟩

/-! Helper lemmas about the Python int() model. -/

theorem ne_of_isDigit {c : Char} (d : Char) (h : c.isDigit = true)
    (hd : d.isDigit = false) : c ≠ d := by
  rintro rfl
  rw [h] at hd
  cases hd

theorem isWhitespace_eq_false_of_isDigit {c : Char} (h : c.isDigit = true) :
    c.isWhitespace = false := by
  have h1 : c ≠ ' ' := ne_of_isDigit _ h (by decide)
  have h2 : c ≠ '\t' := ne_of_isDigit _ h (by decide)
  have h3 : c ≠ '\r' := ne_of_isDigit _ h (by decide)
  have h4 : c ≠ '\n' := ne_of_isDigit _ h (by decide)
  simp [Char.isWhitespace, h1, h2, h3, h4]

theorem dropWhile_isWhitespace_of_digits {cs : List Char}
    (h : ∀ c ∈ cs, c.isDigit = true) :
    cs.dropWhile Char.isWhitespace = cs := by
  cases cs with
  | nil => rfl
  | cons a l =>
    have ha := isWhitespace_eq_false_of_isDigit (h a (List.mem_cons_self a l))
    simp [List.dropWhile, ha]

theorem listTrim_of_digits {cs : List Char} (h : ∀ c ∈ cs, c.isDigit = true) :
    listTrim cs = cs := by
  unfold listTrim
  rw [dropWhile_isWhitespace_of_digits h,
    dropWhile_isWhitespace_of_digits (fun c hc => h c (List.mem_reverse.mp hc)),
    List.reverse_reverse]

theorem digitsCore_of_digits : ∀ (cs : List Char) (acc : Nat),
    (∀ c ∈ cs, c.isDigit = true) →
    digitsCore acc cs = some (cs.foldl (fun a c => a * 10 + (c.toNat - 48)) acc) := by
  intro cs
  induction cs with
  | nil => intro acc _; rfl
  | cons a l ih =>
    intro acc h
    have ha := h a (List.mem_cons_self a l)
    have hne : a ≠ '_' := ne_of_isDigit _ ha (by decide)
    unfold digitsCore
    rw [if_neg hne, if_pos ha, ih _ (fun c hc => h c (List.mem_cons_of_mem a hc))]
    simp

theorem pyStrToInt_of_digits (s : String) (hne : s.data ≠ [])
    (h : ∀ c ∈ s.data, c.isDigit = true) :
    pyStrToInt s = some (Int.ofNat (digitStrVal s)) := by
  unfold pyStrToInt digitStrVal
  rw [listTrim_of_digits h]
  cases hcs : s.data with
  | nil => exact absurd hcs hne
  | cons a l =>
    rw [hcs] at h
    have ha := h a (List.mem_cons_self a l)
    simp only [pyParseTrimmed]
    rw [if_neg (ne_of_isDigit _ ha (by decide)), if_neg (ne_of_isDigit _ ha (by decide))]
    simp only [pyDigitsValue]
    rw [if_pos ha, digitsCore_of_digits l _ (fun c hc => h c (List.mem_cons_of_mem a hc))]
    simp

/-- C1: for every payload whose stock-count field holds a string of decimal
digits (a non-negative integer), is_available succeeds and returns the pair
of the availability flag and the raw string, where the flag is true exactly
when the decimal value of the string is greater than zero. -/
theorem spec_is_available_digit_strings (p : Json) (s : String)
    (hpath : stockPath p = some (Json.str s)) (hne : s.data ≠ [])
    (hdig : ∀ c ∈ s.data, c.isDigit = true) :
    is_available p = .ok (decide (0 < digitStrVal s), Json.str s) := by
  have hparse := pyStrToInt_of_digits s hne hdig
  have hdec : decide (0 < Int.ofNat (digitStrVal s)) = decide (0 < digitStrVal s) :=
    decide_eq_decide.mpr Int.ofNat_pos
  simp [is_available, hpath, pyIntOfJson, hparse, hdec]

/-- Witness for C1: a stock count of "0" yields (false, "0") and a stock
count of "5" yields (true, "5"). -/
theorem spec_is_available_digit_strings_witness :
    is_available (payloadWith (Json.str "0")) = .ok (false, Json.str "0") ∧
    is_available (payloadWith (Json.str "5")) = .ok (true, Json.str "5") := by
  constructor
  · rw [spec_is_available_digit_strings (payloadWith (Json.str "0")) "0" rfl
      (by decide) (by decide)]
    rfl
  · rw [spec_is_available_digit_strings (payloadWith (Json.str "5")) "5" rfl
      (by decide) (by decide)]
    rfl

/-- C8: is_available fails with the missing-data error when the nested
stock path does not exist, and with the invalid-input error when the value
at the path exists but int() cannot produce an integer from it; in both
cases the error is returned (raised) rather than handled. -/
theorem spec_is_available_error_taxonomy (p : Json) :
    (stockPath p = none → is_available p = .error PyError.missingData) ∧
    (∀ v, stockPath p = some v → (∀ n, pyIntOfJson v ≠ .ok n) →
      is_available p = .error PyError.invalidInput) := by
  constructor
  · intro h
    simp [is_available, h]
  · intro v hv hfail
    have hv' : pyIntOfJson v = .error PyError.invalidInput := by
      cases v with
      | str s =>
        cases hp : pyStrToInt s with
        | none => simp [pyIntOfJson, hp]
        | some n => exact absurd (by simp [pyIntOfJson, hp]) (hfail n)
      | num n => exact absurd rfl (hfail n)
      | obj fs => rfl
      | arr xs => rfl
    simp [is_available, hv, hv']

/-- Witness for C8: a payload without the nested path gives missingData and
a payload whose stock count is the non-numeric string "abc" gives
invalidInput. -/
theorem spec_is_available_error_taxonomy_witness :
    is_available (Json.obj []) = .error PyError.missingData ∧
    is_available (payloadWith (Json.str "abc")) = .error PyError.invalidInput := by
  constructor
  · exact (spec_is_available_error_taxonomy (Json.obj [])).1 rfl
  · refine (spec_is_available_error_taxonomy (payloadWith (Json.str "abc"))).2
      (Json.str "abc") rfl ?_
    intro n h
    rw [show pyIntOfJson (Json.str "abc") = Except.error PyError.invalidInput from rfl] at h
    exact Except.noConfusion h

/-- C10: a stock-count string that parses as a negative integer does not
make is_available fail: the product is reported unavailable with the raw
negative string echoed, exactly as for zero. -/
theorem spec_negative_stock_not_available (p : Json) (s : String) (z : Int)
    (hpath : stockPath p = some (Json.str s)) (hparse : pyStrToInt s = some z)
    (hz : z < 0) :
    is_available p = .ok (false, Json.str s) := by
  have hdec : decide (0 < z) = false := decide_eq_false (by omega)
  simp [is_available, hpath, pyIntOfJson, hparse, hdec]

/-- Witness for C10: the stock-count string "-3" parses to -3 and yields
(false, "-3"). -/
theorem spec_negative_stock_not_available_witness :
    is_available (payloadWith (Json.str "-3")) = .ok (false, Json.str "-3") := by
  exact spec_negative_stock_not_available (payloadWith (Json.str "-3")) "-3" (-3)
    rfl rfl (by decide)

/-- Counterexample for C2: the example forecast entry does not render as the
field line followed by a truly blank line, the ten equals signs and a blank
line, because each field line is terminated by a newline followed by a
carriage return; the byte before the separator newline is CR, so the claimed
rendering (with no CR) differs from the actual one. -/
theorem spec_forecast_separator_counterexample :
    forecastBlock [Json.obj [("date", Json.obj [("$", Json.str "2024-01-01")])]] =
      .ok "     date: 2024-01-01\n\r\n==========\n\n" ∧
    "     date: 2024-01-01\n\r\n==========\n\n" ≠
      "     date: 2024-01-01\n\n==========\n\n" :=
  ⟨rfl, by decide⟩

/-- C2 amended: every field of a forecast-day entry renders with exactly
five leading spaces, the field name, a colon and a space, and the $-keyed
value, but the line is terminated by the two characters LF CR; after all
fields of one day the separator "\n==========\n\n" is emitted, so the line
between the last field line and the equals row consists of a single
carriage-return character rather than being empty. -/
theorem spec_forecast_line_rendering (k v : String) (fs : List (String × Json))
    (days : List Json) :
    pad_left k 5 ' ' = "     " ++ k ∧
    renderDay ((k, Json.obj [("$", Json.str v)]) :: fs) =
      (renderDay fs).map (fun r => "     " ++ k ++ ": " ++ v ++ "\n\r" ++ r) ∧
    forecastBlock (Json.obj [(k, Json.obj [("$", Json.str v)])] :: days) =
      (forecastBlock days).map
        (fun r => "     " ++ k ++ ": " ++ v ++ "\n\r" ++ "\n==========\n\n" ++ r) := by
  have hpad : pad_left k 5 ' ' = "     " ++ k := by
    unfold pad_left pyRjust
    rw [Nat.add_sub_cancel_left]
    rfl
  refine ⟨hpad, ?_, ?_⟩
  · simp only [renderDay, Json.getField, lookupField, if_pos rfl, Json.pyStr]
    cases h : renderDay fs with
    | error e => simp [Except.map]
    | ok r => simp [Except.map, hpad]
  · simp only [forecastBlock, renderDay, Json.getField, lookupField, if_pos rfl, Json.pyStr]
    cases h : forecastBlock days with
    | error e => simp [Except.map]
    | ok r => simp [Except.map, hpad]

/-! Helper lemmas about the Python str.replace model. -/

theorem pyReplaceFuel_single (a b : Char) : ∀ (fuel : Nat) (cs : List Char),
    cs.length ≤ fuel →
    pyReplaceFuel [a] [b] fuel cs = cs.map (fun c => if c = a then b else c) := by
  intro fuel
  induction fuel with
  | zero =>
    intro cs h
    cases cs with
    | nil => rfl
    | cons c rest => simp at h
  | succ n ih =>
    intro cs h
    cases cs with
    | nil => rfl
    | cons c rest =>
      simp only [pyReplaceFuel]
      by_cases hc : c = a
      · subst hc
        rw [if_pos (by simp [List.isPrefixOf])]
        simp only [List.length, List.length_singleton, Nat.sub_self, List.drop_zero]
        rw [ih rest (by simpa using Nat.le_of_succ_le_succ (by simpa using h))]
        simp
      · rw [if_neg (by simp [List.isPrefixOf]; exact fun hh => hc hh.symm)]
        rw [ih rest (by simpa using Nat.le_of_succ_le_succ (by simpa using h))]
        simp [hc]

theorem pyReplace_underscore (s : String) :
    pyReplace s "_" " " = underscoreToSpace s := by
  show String.mk (pyReplaceFuel ['_'] [' '] s.data.length s.data) = underscoreToSpace s
  rw [pyReplaceFuel_single '_' ' ' s.data.length s.data (Nat.le_refl _)]
  rfl

/-- C4: the orchestrator derives the store display name by replacing every
underscore with a single space (no capitalization), and the product display
name by the same replacement followed by standard capitalize semantics
(first character upper-cased, remaining characters lower-cased); in
particular "praha_cerny_most" becomes "praha cerny most" and
"hattefjaell_grey" becomes "Hattefjaell grey". -/
theorem spec_display_name_derivation :
    (∀ k : String, storeDisplay k = underscoreToSpace k) ∧
    (∀ k : String, productDisplay k = capitalizeSpec (underscoreToSpace k)) ∧
    storeDisplay "praha_cerny_most" = "praha cerny most" ∧
    productDisplay "hattefjaell_grey" = "Hattefjaell grey" := by
  refine ⟨fun k => pyReplace_underscore k, fun k => ?_, by decide, by decide⟩
  unfold productDisplay
  rw [pyReplace_underscore]
  rfl

/-! Helper lemmas about the orchestrator loops. -/

theorem checkOne_display (http : Http) (cfg : Config)
    (sn sc pn pc : String) (r : ProductResult)
    (h : checkOne http cfg sn sc pn pc = .ok r) :
    r.store = storeDisplay sn ∧ r.name = productDisplay pn := by
  unfold checkOne at h
  split at h
  · simp at h
  · split at h
    · simp at h
    · split at h
      · simp at h
      · simp at h
        rw [← h]
        exact ⟨rfl, rfl⟩

theorem checkRow_pairs (http : Http) (cfg : Config) (sn sc : String) :
    ∀ (ps : List (String × String)) (rs : List ProductResult),
    checkRow http cfg sn sc ps = .ok rs →
    rs.map (fun r => (r.store, r.name)) =
      ps.map (fun p => (storeDisplay sn, productDisplay p.1)) := by
  intro ps
  induction ps with
  | nil =>
    intro rs h
    simp only [checkRow] at h
    simp at h
    subst h
    rfl
  | cons p rest ih =>
    intro rs h
    obtain ⟨pn, pc⟩ := p
    unfold checkRow at h
    split at h
    · simp at h
    · split at h
      · simp at h
      · rename_i x1 r hone x2 rs' hrow
        simp at h
        subst h
        obtain ⟨h1, h2⟩ := checkOne_display http cfg sn sc pn pc r hone
        simp [h1, h2, ih rs' hrow]

theorem checkStores_pairs (http : Http) (cfg : Config) :
    ∀ (ss : List (String × String)) (rs : List ProductResult),
    checkStores http cfg ss = .ok rs →
    rs.map (fun r => (r.store, r.name)) =
      (ss.map (fun st => cfg.product_codes.map
        (fun p => (storeDisplay st.1, productDisplay p.1)))).flatten := by
  intro ss
  induction ss with
  | nil =>
    intro rs h
    simp only [checkStores] at h
    simp at h
    subst h
    rfl
  | cons st rest ih =>
    intro rs h
    obtain ⟨sn, sc⟩ := st
    unfold checkStores at h
    split at h
    · simp at h
    · split at h
      · simp at h
      · rename_i y1 row hrow y2 others hrest
        simp at h
        subst h
        simp [checkRow_pairs http cfg sn sc cfg.product_codes row hrow, ih others hrest]

/-- C3: whenever check_products succeeds, its result records come in
deterministic store-major order: the outer iteration follows the configured
store_codes order and the inner iteration the configured product_codes
order, so the (store, product) identification of the records is exactly the
ordered product of the two configured lists. -/
theorem spec_check_products_order (http : Http) (cfg : Config)
    (rs : List ProductResult) (h : check_products http cfg = .ok rs) :
    rs.map (fun r => (r.store, r.name)) =
      (cfg.store_codes.map (fun st => cfg.product_codes.map
        (fun p => (storeDisplay st.1, productDisplay p.1)))).flatten :=
  checkStores_pairs http cfg cfg.store_codes rs h

/-- Witness for C3: a run over stores s1, s2 and products p1, p2 succeeds
and yields the records in the exact sequence (s1,p1), (s1,p2), (s2,p1),
(s2,p2) (with display names applied). -/
theorem spec_check_products_order_witness :
    check_products httpGood cfg22 = .ok results22 ∧
    results22.map (fun r => (r.store, r.name)) =
      [("s1", "P1"), ("s1", "P2"), ("s2", "P1"), ("s2", "P2")] := by
  constructor
  · rfl
  · exact (spec_check_products_order httpGood cfg22 results22 rfl).trans (by decide)

/-- C9: a configuration whose store_codes mapping or product_codes mapping
is empty makes check_products return the empty result list, for every HTTP
oracle whatsoever, so no HTTP request is ever issued. -/
theorem spec_empty_config_no_requests (http : Http) (cfg : Config)
    (h : cfg.store_codes = [] ∨ cfg.product_codes = []) :
    check_products http cfg = .ok [] := by
  cases h with
  | inl h =>
    unfold check_products
    rw [h]
    rfl
  | inr h =>
    unfold check_products
    have aux : ∀ ss, checkStores http cfg ss = .ok [] := by
      intro ss
      induction ss with
      | nil => rfl
      | cons st rest ih =>
        obtain ⟨sn, sc⟩ := st
        unfold checkStores
        rw [h]
        simp only [checkRow]
        rw [ih]
        rfl
    exact aux cfg.store_codes

/-- Witness for C9: the empty-store configuration yields the empty result
list even under an oracle that would answer every request. -/
theorem spec_empty_config_no_requests_witness :
    check_products httpGood cfgEmptyStores = .ok [] :=
  spec_empty_config_no_requests httpGood cfgEmptyStores (Or.inl rfl)

/-- C5: whenever the backend answers a request with an error status in the
400-599 range, fetch_product_info does not return a value: it carries the
textual HTTPError description (as printed) and terminates the process with
exit status 1. -/
theorem spec_http_error_fail_fast (http : Http)
    (api_host api_resource store_code product_code : String)
    (hdrs : List (String × String))
    (h400 : 400 ≤ (http (requestUrl api_host api_resource store_code product_code) hdrs).status)
    (h600 : (http (requestUrl api_host api_resource store_code product_code) hdrs).status < 600) :
    fetch_product_info http api_host api_resource store_code product_code hdrs =
      .error (.exit 1 (httpErrorMsg
        (http (requestUrl api_host api_resource store_code product_code) hdrs).status
        (http (requestUrl api_host api_resource store_code product_code) hdrs).reason
        (requestUrl api_host api_resource store_code product_code))) := by
  unfold fetch_product_info
  rw [if_pos ⟨h400, h600⟩]

/-- Witness for C5: a 404 response makes fetch_product_info exit with
status 1 carrying the printed client-error text. -/
theorem spec_http_error_fail_fast_witness :
    fetch_product_info http404 "https://example.com"
      "/a/\x7bstore_code\x7d/\x7bproduct_code\x7d.json" "1" "2" [] =
      .error (.exit 1 "404 Client Error: Not Found for url: https://example.com/a/1/2.json") := by
  rw [spec_http_error_fail_fast http404 "https://example.com"
    "/a/\x7bstore_code\x7d/\x7bproduct_code\x7d.json" "1" "2" []
    (by decide) (by decide)]
  rfl

/-- Helper for C6: the message concatenation loop of create_mail_message
concatenates exactly the per-product sections in order. -/
theorem concat_eq_sections :
    ∀ (rs : List ProductResult) (ms : List String),
    sectionsOf rs = .ok ms → concatMessages rs = .ok (joinStrings ms) := by
  intro rs
  induction rs with
  | nil =>
    intro ms h
    simp only [sectionsOf] at h
    simp at h
    subst h
    rfl
  | cons p rest ih =>
    intro ms h
    unfold sectionsOf at h
    split at h
    · simp at h
    · split at h
      · simp at h
      · rename_i z1 m hm z2 ms' hms
        simp at h
        subst h
        unfold concatMessages
        rw [hm, ih ms' hms]
        rfl

/-- C6: for every input sequence of product check results (the empty one
included) whose sections all render, create_mail_message returns the
upper-cased report header line followed by a blank line and then the
concatenation of the per-product sections in exactly the input order. -/
theorem spec_report_message (rs : List ProductResult) (ms : List String)
    (h : sectionsOf rs = .ok ms) :
    create_mail_message rs =
      .ok ("AVAILABILITY STATUS OF IKEA PRODUCTS:\n\n" ++ joinStrings ms) := by
  unfold create_mail_message
  rw [concat_eq_sections rs ms h]
  rfl

/-- Witness for C6: the empty result list yields just the header, and two
results for store "a" and products "p1", "p2" yield their sections in that
order after the header. -/
theorem spec_report_message_witness :
    create_mail_message [] =
      .ok ("AVAILABILITY STATUS OF IKEA PRODUCTS:\n\n" ++ joinStrings []) ∧
    create_mail_message
      [⟨"a", "p1", (true, Json.str "1"), Json.arr []⟩,
       ⟨"a", "p2", (false, Json.str "0"), Json.arr []⟩] =
      .ok ("AVAILABILITY STATUS OF IKEA PRODUCTS:\n\n" ++ joinStrings
        ["STORE: \x27A\x27\nStatus for \x27p1\x27:\n\nProduct is currently available with 1 in stock.\n\nAVAILABILITY FORECAST:\n\n",
         "STORE: \x27A\x27\nStatus for \x27p2\x27:\n\nProduct is currently not available with 0 in stock.\n\nAVAILABILITY FORECAST:\n\n"]) := by
  constructor
  · exact spec_report_message [] [] rfl
  · exact spec_report_message
      [⟨"a", "p1", (true, Json.str "1"), Json.arr []⟩,
       ⟨"a", "p2", (false, Json.str "0"), Json.arr []⟩]
      ["STORE: \x27A\x27\nStatus for \x27p1\x27:\n\nProduct is currently available with 1 in stock.\n\nAVAILABILITY FORECAST:\n\n",
       "STORE: \x27A\x27\nStatus for \x27p2\x27:\n\nProduct is currently not available with 0 in stock.\n\nAVAILABILITY FORECAST:\n\n"]
      rfl

/-- C7: for every API host that parses as scheme://netloc/path, the URL
requested for the availability template with store code "123" and product
code "456" is the host's scheme and network location followed by the path
/availability/123/456.json (placeholders substituted, path joined with
standard base-plus-absolute-path semantics). -/
theorem spec_request_url_resolution (api_host sch netloc bpath : String)
    (h : splitUrl api_host = some (sch, netloc, bpath)) :
    requestUrl api_host "/availability/\x7bstore_code\x7d/\x7bproduct_code\x7d.json"
      "123" "456" =
      sch ++ "://" ++ netloc ++ "/availability/123/456.json" := by
  have hsub : pyReplace (pyReplace "/availability/\x7bstore_code\x7d/\x7bproduct_code\x7d.json"
      "\x7bstore_code\x7d" "123") "\x7bproduct_code\x7d" "456" =
      "/availability/123/456.json" := rfl
  unfold requestUrl
  rw [hsub]
  unfold urljoin
  rw [if_neg (by decide : ¬("/availability/123/456.json" : String) = "")]
  rw [show splitUrl "/availability/123/456.json" = none from rfl]
  rw [h]
  have h1 : strStartsWith "/availability/123/456.json" "//" = false := rfl
  have h2 : strStartsWith "/availability/123/456.json" "/" = true := rfl
  simp [h1, h2]

/-- Witness for C7: against the host https://www.ikea.com/cz/cs the request
goes to https://www.ikea.com/availability/123/456.json. -/
theorem spec_request_url_resolution_witness :
    requestUrl "https://www.ikea.com/cz/cs"
      "/availability/\x7bstore_code\x7d/\x7bproduct_code\x7d.json" "123" "456" =
      "https://www.ikea.com/availability/123/456.json" := by
  rw [spec_request_url_resolution "https://www.ikea.com/cz/cs"
    "https" "www.ikea.com" "/cz/cs" rfl]
  rfl
